import Mathlib

/-!
Shallow embedding of `src/app.js` (social_media_analyzer_backend): a LangFlow
request client (`post`, `initiateSession`, `handleStream`, `runFlow`), an
insights cache and lookup (`getInsights`), and the Fastify gateway error
handling.  JavaScript values flowing through the code are modelled by a small
JSON value type; JS truthiness and template-literal stringification are
modelled explicitly.  Network and timer effects are made explicit: the fetch
outcome is an input, and the stream consumer is a step function over a state
carrying the EventSource open flag and the pending heartbeat deadline.
-/

/-- JSON values as produced by `JSON.parse` / consumed by the client code.
`null` also stands for JS `undefined` where a distinction does not matter. -/
inductive Json where
  | null : Json
  | bool : Bool → Json
  | num : Int → Json
  | str : String → Json
  | arr : List Json → Json
  | obj : List (String × Json) → Json

/-- JS truthiness of a value (`if (v)`). Objects and arrays are always truthy;
`0`, `""`, `false`, `null`/`undefined` are falsy. -/
def truthy : Json → Bool
  | .null => false
  | .bool b => b
  | .num n => n != 0
  | .str s => s != ""
  | .arr _ => true
  | .obj _ => true

/-- Truthiness of an optional-chaining result, where `none` is `undefined`. -/
def truthyOpt : Option Json → Bool
  | none => false
  | some v => truthy v

/-- Property access `o?.f`: field lookup on an object, `undefined` otherwise. -/
def getField : Json → String → Option Json
  | .obj fields, k => (fields.find? (fun p => p.1 == k)).map (·.2)
  | _, _ => none

/-- Index access `o?.[i]`: list indexing on an array, `undefined` otherwise. -/
def getIndex : Json → Nat → Option Json
  | .arr xs, i => xs.get? i
  | _, _ => none

/-- JS template-literal stringification (`${v}`) of a JSON value. -/
def jsDisplay : Json → String
  | .null => "null"
  | .bool b => if b then "true" else "false"
  | .num n => toString n
  | .str s => s
  | .obj _ => "[object Object]"
  | .arr [] => ""
  | .arr (x :: xs) =>
      (match x with | .null => "" | y => jsDisplay y)
        ++ (if xs.isEmpty then "" else "," ++ jsDisplay (.arr xs))

/-- The outcome of the single `fetch` performed by `LangflowClient.post`:
either an HTTP response (with status data and the result of parsing its body
as JSON) or a transport-level failure (DNS, connection, timeout) carrying the
underlying cause's message. -/
structure HttpResp where
  ok : Bool
  status : Nat
  statusText : String
  body : Except String Json

inductive FetchOutcome where
  | success : HttpResp → FetchOutcome
  | failure : (causeMsg : String) → FetchOutcome

/-- The best-effort upstream error message of `post` when the plain access
`errorData.message` does not throw (i.e. `errorData` is not JS `null`): the
body's `message` field when the body parses as JSON and that field is truthy,
otherwise the HTTP status text (`errorData.message || response.statusText`);
accessing `.message` on a non-null non-object yields `undefined`, also
falling back to the status text.  The throwing `null` case is handled in
`post` itself. -/
def upstreamMsg (r : HttpResp) : String :=
  let errorData := match r.body with | .ok j => j | .error _ => Json.obj []
  match getField errorData "message" with
  | some v => if truthy v then jsDisplay v else r.statusText
  | none => r.statusText

/-- `LangflowClient.post` (src/app.js:16-35).  On a non-OK response,
`errorData` is the body parsed as JSON, `{}` when parsing fails (the
`.catch(() => ({}))` guards only the parse).  When the body is the JSON
literal `null`, the plain access `errorData.message` throws a TypeError,
which the outer `catch` wraps as `Request failed: Cannot read properties of
null (reading 'message')` — without the status code.  Otherwise line 28
throws `HTTP {status}: {message}` inside the `try`, re-wrapped by the outer
`catch` as `Request failed: HTTP {status}: {message}`.  A transport failure
is wrapped as `Request failed: {cause}`.  On an OK response the body promise
is returned without `await`, so a body parse failure escapes the `catch`
un-wrapped. -/
def post (outcome : FetchOutcome) : Except String Json :=
  match outcome with
  | .failure cause => .error ("Request failed: " ++ cause)
  | .success r =>
      if r.ok then
        r.body
      else
        match r.body with
        | .ok .null =>
            .error "Request failed: Cannot read properties of null (reading 'message')"
        | _ =>
            .error ("Request failed: HTTP " ++ toString r.status ++ ": " ++ upstreamMsg r)

/-- JS falsiness of a string-or-missing argument (`!flowId`): missing
(`none`) or the empty string. -/
def strFalsy : Option String → Bool
  | none => true
  | some s => s == ""

/-- The network request `initiateSession` issues: the endpoint built from the
path template, and the JSON body fields `input_value`, `input_type`,
`output_type`. -/
structure ReqInfo where
  endpoint : String
  input_value : String
  input_type : String
  output_type : String

/-- `LangflowClient.initiateSession` (src/app.js:37-48).  The second component
records the network request issued, `none` when no request is issued: the
validation failure happens before `post` is called. -/
def initiateSession (flowId langflowId inputValue : Option String)
    (inputType outputType : String) (stream : Bool) (outcome : FetchOutcome) :
    Except String Json × Option ReqInfo :=
  if strFalsy flowId || strFalsy langflowId || strFalsy inputValue then
    (.error "Missing required parameters", none)
  else
    let endpoint := "/lf/" ++ (langflowId.getD "") ++ "/api/v1/run/"
      ++ (flowId.getD "") ++ "?stream=" ++ (if stream then "true" else "false")
    (post outcome,
      some { endpoint, input_value := inputValue.getD "",
             input_type := inputType, output_type := outputType })

/-! ## Stream consumer (`LangflowClient.handleStream`, src/app.js:50-92)

The consumer is modelled as a step function over a state holding the
EventSource open flag and the pending heartbeat deadline (in milliseconds).
External stimuli are: an incoming message (carrying the result of
`JSON.parse(event.data)` and the behaviour of the caller's `onUpdate` on the
parsed value — `some m` when it throws an exception with message `m`), a
transport error, the server-issued `close` event, and the firing of the
heartbeat timer.  EventSource events are delivered only while the source is
open; a pending `setTimeout` fires at its deadline regardless of whether the
EventSource has been closed. -/

structure SState where
  esOpen : Bool
  timer : Option Nat
deriving Repr, DecidableEq

inductive SEvent where
  | msg : Except String Json → Option String → SEvent
  | transportErr : SEvent
  | closeEvt : SEvent
  | timerFire : SEvent

/-- Observable callback invocations, in order, plus the `console.warn` log. -/
inductive SOut where
  | update : Json → SOut
  | errMsg : String → SOut
  | errEvent : SOut
  | closed : String → SOut
  | warn : SOut

/-- `resetHeartbeat` (src/app.js:58-65): clear any pending timer and arm a
new 30000 ms one, measured from the current time. -/
def resetHeartbeat (now : Nat) (s : SState) : SState :=
  { s with timer := some (now + 30000) }

/-- One reaction of `handleStream`'s wiring to a stimulus at time `now`
(milliseconds).  Returns the next state and the emitted callbacks.

* `onmessage` (lines 67-76): `resetHeartbeat()` first; then the `try` block
  runs `JSON.parse` and `onUpdate` — an exception from either is caught,
  reported via `onError('Failed to parse stream data: …')`, and the
  EventSource is closed.  Note the heartbeat armed at the top of the handler
  is not cleared on this path.
* `onerror` (lines 78-82): clear the timer, `onError(event)`, close.
* the `close` listener (lines 84-88): clear the timer, `onClose('Stream
  closed')`, close.
* the heartbeat callback (lines 60-64): `console.warn`, close, `onError(new
  Error('Stream timeout'))`; it fires whenever its deadline is reached, even
  if the EventSource was closed meanwhile. -/
def streamStep (now : Nat) (s : SState) (e : SEvent) : SState × List SOut :=
  match e with
  | .msg parse updThrows =>
      if s.esOpen then
        let s1 := resetHeartbeat now s
        match parse with
        | .ok j =>
            match updThrows with
            | none => (s1, [.update j])
            | some m =>
                ({ s1 with esOpen := false },
                  [.update j, .errMsg ("Failed to parse stream data: " ++ m)])
        | .error m =>
            ({ s1 with esOpen := false },
              [.errMsg ("Failed to parse stream data: " ++ m)])
      else (s, [])
  | .transportErr =>
      if s.esOpen then ({ esOpen := false, timer := none }, [.errEvent])
      else (s, [])
  | .closeEvt =>
      if s.esOpen then ({ esOpen := false, timer := none }, [.closed "Stream closed"])
      else (s, [])
  | .timerFire =>
      if s.timer = some now then
        ({ esOpen := false, timer := none }, [.warn, .errMsg "Stream timeout"])
      else (s, [])

/-- The state `handleStream` leaves behind after attaching the handlers and
calling `resetHeartbeat()` once (line 90), at attach time `t0`. -/
def initStream (t0 : Nat) : SState :=
  { esOpen := true, timer := some (t0 + 30000) }

/-! ## Orchestration and insights lookup (src/app.js:94-176) -/

/-- The stream-URL extraction of `runFlow` (line 106):
`initResponse?.outputs?.[0]?.outputs?.[0]?.artifacts?.stream_url`. -/
def extractStreamUrl (j : Json) : Option Json :=
  (((((getField j "outputs").bind (getIndex · 0)).bind
      (getField · "outputs")).bind (getIndex · 0)).bind
      (getField · "artifacts")).bind (getField · "stream_url")

/-- What `runFlow` resolves to: either the initiate response (synchronous
mode) or the EventSource handle returned by `handleStream`. -/
inductive RunOutcome where
  | response : Json → RunOutcome
  | streamHandle : Json → RunOutcome

/-- `LangflowClient.runFlow` (src/app.js:94-115).  Any failure from
`initiateSession` (or `handleStream`) is re-wrapped as
`Flow execution failed: {message}`.  The second component is the endpoint of
the network request issued, if any. -/
def runFlow (flowId langflowId inputValue : Option String)
    (inputType outputType : String) (stream : Bool) (outcome : FetchOutcome) :
    Except String RunOutcome × Option ReqInfo :=
  match initiateSession flowId langflowId inputValue inputType outputType stream outcome with
  | (.error m, req) => (.error ("Flow execution failed: " ++ m), req)
  | (.ok j, req) =>
      if stream && truthyOpt (extractStreamUrl j) then
        match extractStreamUrl j with
        | some url => (.ok (.streamHandle url), req)
        | none => (.ok (.response j), req)
      else (.ok (.response j), req)

/-- The in-memory insights cache (`new NodeCache({ stdTTL: 3600 })`,
src/app.js:119-120): entries are key, value and the TTL (seconds) they were
stored with. -/
abbrev Cache := List (String × Json × Nat)

/-- `NodeCache#get`: the stored value, or `undefined` when absent. -/
def cacheGet (c : Cache) (k : String) : Option Json :=
  (c.find? (fun e => e.1 == k)).map (fun e => e.2.1)

/-- The TTL a present key was stored with. -/
def cacheGetTtl (c : Cache) (k : String) : Option Nat :=
  (c.find? (fun e => e.1 == k)).map (fun e => e.2.2)

/-- `NodeCache#set` with the instance-wide standard TTL of 3600 seconds. -/
def cacheSet (c : Cache) (k : String) (v : Json) : Cache :=
  (k, v, 3600) :: c.filter (fun e => e.1 != k)

/-- The text extraction of `getInsights` (line 165):
`response?.outputs?.[0]?.outputs?.[0]?.outputs?.message?.message?.text`. -/
def extractText (j : Json) : Option Json :=
  ((((((getField j "outputs").bind (getIndex · 0)).bind
      (getField · "outputs")).bind (getIndex · 0)).bind
      (getField · "outputs")).bind (getField · "message")).bind
      (getField · "message") |>.bind (getField · "text")

/-- The fixed flow identifier used by `getInsights` (src/app.js:130). -/
def insightsFlowId : String := "5d664ca6-224d-4112-b143-d31786f9a046"

/-- The fixed flow-group (langflow) identifier (src/app.js:131). -/
def insightsLangflowId : String := "aa552875-56d4-431d-94bd-389aa1c8d68f"

/-- Result of one `getInsights` call: the returned/thrown value, the cache
left behind, and the endpoint of the upstream request issued, if any. -/
structure InsightsResult where
  result : Except String Json
  cache : Cache
  request : Option ReqInfo

/-- `getInsights` (src/app.js:122-176).  The cache key is
`insights-{inputValue}`; a truthy cached value is returned immediately.  On a
miss, a missing `MODEL_TOKEN` fails before any client is built; otherwise
`runFlow` is invoked with the fixed flow identifiers, and in non-stream mode
a truthy value at the nested text path is cached (standard TTL) and
returned; anything else raises `Invalid response format`.  Every error from
the `try` block is re-wrapped as `Failed to get insights: {message}`. -/
def getInsights (cache : Cache) (inputValue : String)
    (inputType outputType : String) (stream : Bool) (tokenPresent : Bool)
    (outcome : FetchOutcome) : InsightsResult :=
  let cacheKey := "insights-" ++ inputValue
  if truthyOpt (cacheGet cache cacheKey) then
    { result := .ok ((cacheGet cache cacheKey).getD .null), cache, request := none }
  else if !tokenPresent then
    { result := .error "MODEL_TOKEN environment variable is not set", cache,
      request := none }
  else
    match runFlow (some insightsFlowId) (some insightsLangflowId)
        (some inputValue) inputType outputType stream outcome with
    | (.error m, req) =>
        { result := .error ("Failed to get insights: " ++ m), cache, request := req }
    | (.ok out, req) =>
        match out with
        | .streamHandle _ =>
            { result := .error "Failed to get insights: Invalid response format",
              cache, request := req }
        | .response j =>
            if !stream && truthyOpt (extractText j) then
              let output := (extractText j).getD .null
              { result := .ok output, cache := cacheSet cache cacheKey output,
                request := req }
            else
              { result := .error "Failed to get insights: Invalid response format",
                cache, request := req }

/-! ## HTTP gateway error handling (src/app.js:216-249) -/

/-- A Fastify error object: `statusCode` (possibly absent) and `message`. -/
structure FastifyError where
  statusCode : Option Nat
  message : String

/-- A gateway reply body: `{success: true, data}` or `{success: false, error}`. -/
inductive GatewayBody where
  | okData : Json → GatewayBody
  | errBody : String → GatewayBody

/-- `fastify.setErrorHandler` (src/app.js:238-249): status is
`error.statusCode || 500` (a statusCode of `0` is falsy in JS), and the body
is the generic envelope for status 500, the error's own message otherwise. -/
def errorHandler (e : FastifyError) : Nat × GatewayBody :=
  let sc := match e.statusCode with
    | some c => if c == 0 then 500 else c
    | none => 500
  (sc, .errBody (if sc == 500 then "Internal Server Error" else e.message))

/-- The `GET /insights/:keyword` handler (src/app.js:226-235) composed with
the global error handler: a successful lookup is a 200
`{success: true, data}` reply; any thrown error is re-thrown as
`createError(500, error.message)`, which the error handler converts. -/
def insightsRoute (lookup : Except String Json) : Nat × GatewayBody :=
  match lookup with
  | .ok t => (200, .okData t)
  | .error m => errorHandler { statusCode := some 500, message := m }

/-- The upstream request `getInsights` builds on a cache miss: the endpoint
from the path template of `initiateSession` instantiated with the fixed flow
identifiers (src/app.js:41, 130-131), and the body fields. -/
def insightsRequest (stream : Bool) (kw inputType outputType : String) : ReqInfo :=
  { endpoint := "/lf/" ++ insightsLangflowId ++ "/api/v1/run/" ++ insightsFlowId
      ++ "?stream=" ++ (if stream then "true" else "false"),
    input_value := kw, input_type := inputType, output_type := outputType }

/-- A concrete upstream response carrying the value `t` at the nested path
`outputs[0].outputs[0].outputs.message.message.text` consumed by
`getInsights`. -/
def sampleResponse (t : Json) : Json :=
  .obj [("outputs", .arr [
    .obj [("outputs", .arr [
      .obj [("outputs",
        .obj [("message", .obj [("message", .obj [("text", t)])])])]])]])]

/-- Spec-side predicate, following the spec's words for the cache-content
claim: the value is a non-empty string. -/
def isNonEmptyString : Json → Bool
  | .str s => s != ""
  | _ => false

/-! ## Shared helper lemmas -/

lemma strFalsy_some_ne {s : String} (h : s ≠ "") : strFalsy (some s) = false := by
  simp [strFalsy, h]

lemma insightsFlowId_nonempty : strFalsy (some insightsFlowId) = false := by decide

lemma insightsLangflowId_nonempty : strFalsy (some insightsLangflowId) = false := by decide

lemma cacheGet_set (c : Cache) (k : String) (v : Json) :
    cacheGet (cacheSet c k v) k = some v := by
  simp [cacheGet, cacheSet, List.find?]

lemma cacheGetTtl_set (c : Cache) (k : String) (v : Json) :
    cacheGetTtl (cacheSet c k v) k = some 3600 := by
  simp [cacheGetTtl, cacheSet, List.find?]

/-! ## Claim theorems -/

/-- C1 (counterexample): a non-success response whose body is the JSON
literal `null` does not produce an error carrying the status code: the plain
`errorData.message` access throws a TypeError, wrapped by the outer `catch`
as `Request failed: Cannot read properties of null (reading 'message')` —
not the `Request failed: HTTP 503: Service Unavailable` the claim
predicts at this input. -/
theorem post_null_body_loses_status :
    post (.success ⟨false, 503, "Service Unavailable", .ok .null⟩) =
      .error "Request failed: Cannot read properties of null (reading 'message')"
    ∧ "Request failed: Cannot read properties of null (reading 'message')" ≠
        "Request failed: HTTP 503: Service Unavailable" :=
  ⟨rfl, by decide⟩

/-- C1 (amended): on a non-success HTTP status whose body is not the JSON
literal `null`, `post` fails with the upstream error channel
`Request failed: HTTP {status}: {message}` — the status code is carried
verbatim and the message is the body's `message` field, falling back to the
status text when the body is not parseable JSON; when the non-success body
parses to `null`, the `errorData.message` access throws and the failure is
the wrapped TypeError, carrying no status code; and every transport-level
failure goes through the distinct transport channel
`Request failed: {cause}`, wrapping the underlying cause. -/
theorem post_error_taxonomy (r : HttpResp) (cause : String) (hok : r.ok = false)
    (hnn : r.body ≠ .ok .null) :
    post (.success r) =
      .error ("Request failed: HTTP " ++ toString r.status ++ ": " ++ upstreamMsg r)
    ∧ (∀ m, r.body = .error m → upstreamMsg r = r.statusText)
    ∧ (∀ r2 : HttpResp, r2.ok = false → r2.body = .ok .null →
        post (.success r2) =
          .error "Request failed: Cannot read properties of null (reading 'message')")
    ∧ post (.failure cause) = .error ("Request failed: " ++ cause) := by
  refine ⟨?_, ?_, ?_, rfl⟩
  · rcases hb : r.body with m | j
    · simp [post, hok, hb]
    · cases j <;> simp_all [post, hok, hb]
  · intro m hm
    simp [upstreamMsg, hm, getField]
  · intro r2 hok2 hb2
    simp [post, hok2, hb2]

theorem post_error_taxonomy_witness :
    post (.success { ok := false, status := 503, statusText := "Service Unavailable",
                     body := .error "bad json" }) =
      .error "Request failed: HTTP 503: Service Unavailable"
    ∧ post (.success { ok := false, status := 404, statusText := "Not Found",
                       body := .ok .null }) =
      .error "Request failed: Cannot read properties of null (reading 'message')"
    ∧ post (.failure "fetch failed") = .error "Request failed: fetch failed" := by
  have h := post_error_taxonomy
    { ok := false, status := 503, statusText := "Service Unavailable",
      body := .error "bad json" } "fetch failed" rfl (fun hx => nomatch hx)
  refine ⟨?_, h.2.2.1 ⟨false, 404, "Not Found", .ok .null⟩ rfl rfl, h.2.2.2⟩
  rw [h.1, h.2.1 "bad json" rfl]
  rfl

/-- C6: whenever `flowId`, `langflowId` or `inputValue` is missing or the
empty string, `initiateSession` fails with the `Missing required parameters`
error and issues no network request at all. -/
theorem initiateSession_rejects_empty (flowId langflowId inputValue : Option String)
    (inputType outputType : String) (stream : Bool) (outcome : FetchOutcome)
    (h : strFalsy flowId = true ∨ strFalsy langflowId = true ∨ strFalsy inputValue = true) :
    initiateSession flowId langflowId inputValue inputType outputType stream outcome =
      (.error "Missing required parameters", none) := by
  rcases h with h | h | h <;> simp [initiateSession, h]

theorem initiateSession_rejects_empty_witness :
    initiateSession (some "") (some "group") (some "hello") "chat" "chat" false
      (.failure "unreached") = (.error "Missing required parameters", none) :=
  initiateSession_rejects_empty _ _ _ _ _ _ _ (Or.inl (by decide))

/-- C5: the cache key depends on the keyword alone, so any call with a
keyword whose (truthy) value is cached returns that value immediately, with
no upstream request, for all values of `inputType`, `outputType` and
`stream`. -/
theorem getInsights_cache_hit (cache : Cache) (kw inputType outputType : String)
    (stream tokenPresent : Bool) (outcome : FetchOutcome) (v : Json)
    (hhit : cacheGet cache ("insights-" ++ kw) = some v) (hv : truthy v = true) :
    getInsights cache kw inputType outputType stream tokenPresent outcome =
      { result := .ok v, cache := cache, request := none } := by
  simp [getInsights, hhit, truthyOpt, hv]

theorem getInsights_cache_hit_witness :
    getInsights [("insights-rust-servers", Json.str "X", 3600)] "rust-servers"
        "text" "json" true false (.failure "unreached") =
      { result := .ok (.str "X"), cache := [("insights-rust-servers", Json.str "X", 3600)],
        request := none } :=
  getInsights_cache_hit _ _ _ _ _ _ _ _ rfl rfl

/-- C9: every error thrown inside the `GET /insights/:keyword` handler is
answered with the constant 500 envelope `{success: false, error: "Internal
Server Error"}`, independent of the internal error's message; errors that
reach the global handler with a non-500 (non-zero) status code pass through
with their own message. -/
theorem gateway_error_opacity :
    (∀ m, insightsRoute (.error m) = (500, .errBody "Internal Server Error"))
    ∧ (∀ (e : FastifyError) (c : Nat), e.statusCode = some c → c ≠ 500 → c ≠ 0 →
        errorHandler e = (c, .errBody e.message)) := by
  constructor
  · intro m
    simp [insightsRoute, errorHandler]
  · intro e c hc h500 h0
    simp [errorHandler, hc, h0, h500]

theorem gateway_error_opacity_witness :
    insightsRoute (.error "Failed to get insights: Request failed: HTTP 503: token leaked") =
      (500, .errBody "Internal Server Error")
    ∧ errorHandler ⟨some 400, "params/keyword must NOT have fewer than 1 characters"⟩ =
      (400, .errBody "params/keyword must NOT have fewer than 1 characters") :=
  ⟨gateway_error_opacity.1 _,
   gateway_error_opacity.2 _ 400 rfl (by decide) (by decide)⟩

/-- C2 (counterexample): a successfully parsed event whose `onUpdate` handler
throws does not get its exception propagated: the `try` block of `onmessage`
encloses the `onUpdate` call, so the exception is caught, reported through
`onError` as `Failed to parse stream data: …` — the malformed-event channel —
and the connection is closed. -/
theorem onmessage_catches_onUpdate :
    streamStep 0 (initStream 0) (.msg (.ok (.str "x")) (some "boom")) =
      ({ esOpen := false, timer := some 30000 },
        [.update (.str "x"), .errMsg "Failed to parse stream data: boom"]) := rfl

/-- C2 (amended): a parsed event invokes `onUpdate` with the parsed object
and, when `onUpdate` itself throws, the exception is caught by the same
`try/catch` as a parse failure: `onError` receives the
`Failed to parse stream data` condition and the connection is closed, the
exception does not propagate.  An event whose payload fails to parse invokes
`onError` with that condition and closes without invoking `onUpdate`. -/
theorem onmessage_dispatch (now : Nat) (s : SState) (j : Json) (m : String)
    (b : Option String) (hopen : s.esOpen = true) :
    streamStep now s (.msg (.ok j) none) = (resetHeartbeat now s, [.update j])
    ∧ streamStep now s (.msg (.ok j) (some m)) =
        ({ esOpen := false, timer := some (now + 30000) },
          [.update j, .errMsg ("Failed to parse stream data: " ++ m)])
    ∧ streamStep now s (.msg (.error m) b) =
        ({ esOpen := false, timer := some (now + 30000) },
          [.errMsg ("Failed to parse stream data: " ++ m)]) := by
  refine ⟨?_, ?_, ?_⟩ <;> simp [streamStep, hopen, resetHeartbeat]

theorem onmessage_dispatch_witness :
    streamStep 0 (initStream 0) (.msg (.ok .null) none) =
      (resetHeartbeat 0 (initStream 0), [.update .null])
    ∧ streamStep 0 (initStream 0) (.msg (.ok .null) (some "bad")) =
        ({ esOpen := false, timer := some 30000 },
          [.update .null, .errMsg "Failed to parse stream data: bad"])
    ∧ streamStep 0 (initStream 0) (.msg (.error "bad") none) =
        ({ esOpen := false, timer := some 30000 },
          [.errMsg "Failed to parse stream data: bad"]) :=
  onmessage_dispatch 0 (initStream 0) .null "bad" none rfl

/-- C3 (counterexample): after the closure caused by a malformed event the
idle-timeout guard is still pending (only `eventSource.close()` is called,
`clearTimeout` is not), and its firing 30 seconds later invokes `onError`
with the timeout condition — a timeout-driven `onError` after a terminal
state, and a second release of the connection. -/
theorem malformed_close_leaves_timer :
    (streamStep 0 (initStream 0) (.msg (.error "Unexpected token") none)).1 =
      { esOpen := false, timer := some 30000 }
    ∧ streamStep 30000 { esOpen := false, timer := some 30000 } .timerFire =
      ({ esOpen := false, timer := none }, [.warn, .errMsg "Stream timeout"]) :=
  ⟨rfl, rfl⟩

/-- C3 (amended): the terminal transitions via transport error and via the
server close event release the connection and cancel the idle-timeout guard,
the timeout firing releases the connection and consumes the guard, and with
no pending guard no timeout-driven `onError` can ever occur; but the closure
after a malformed event leaves the guard pending (armed by the
`resetHeartbeat` at the top of `onmessage` and never cleared), and its later
firing invokes `onError` with the timeout condition after the closure. -/
theorem stream_terminal_cleanup (now : Nat) (s : SState) (m : String)
    (hopen : s.esOpen = true) :
    streamStep now s .transportErr = ({ esOpen := false, timer := none }, [.errEvent])
    ∧ streamStep now s .closeEvt =
        ({ esOpen := false, timer := none }, [.closed "Stream closed"])
    ∧ (s.timer = some now →
        streamStep now s .timerFire =
          ({ esOpen := false, timer := none }, [.warn, .errMsg "Stream timeout"]))
    ∧ (∀ (t : Nat) (b : Bool),
        streamStep t { esOpen := b, timer := none } .timerFire =
          ({ esOpen := b, timer := none }, []))
    ∧ (streamStep now s (.msg (.error m) none)).1 =
        { esOpen := false, timer := some (now + 30000) }
    ∧ streamStep (now + 30000) { esOpen := false, timer := some (now + 30000) }
        .timerFire = ({ esOpen := false, timer := none },
          [.warn, .errMsg "Stream timeout"]) := by
  refine ⟨?_, ?_, ?_, ?_, ?_, ?_⟩
  · simp [streamStep, hopen]
  · simp [streamStep, hopen]
  · intro hpend; simp [streamStep, hpend]
  · intro t b; simp [streamStep]
  · simp [streamStep, hopen, resetHeartbeat]
  · simp [streamStep]

theorem stream_terminal_cleanup_witness :
    streamStep 0 ⟨true, some 0⟩ .transportErr = (⟨false, none⟩, [.errEvent])
    ∧ streamStep 0 ⟨true, some 0⟩ .closeEvt = (⟨false, none⟩, [.closed "Stream closed"])
    ∧ streamStep 0 ⟨true, some 0⟩ .timerFire =
        (⟨false, none⟩, [.warn, .errMsg "Stream timeout"])
    ∧ streamStep 99 ⟨false, none⟩ .timerFire = (⟨false, none⟩, [])
    ∧ (streamStep 0 ⟨true, some 0⟩ (.msg (.error "bad") none)).1 = ⟨false, some 30000⟩
    ∧ streamStep 30000 ⟨false, some 30000⟩ .timerFire =
        (⟨false, none⟩, [.warn, .errMsg "Stream timeout"]) := by
  have h := stream_terminal_cleanup 0 ⟨true, some 0⟩ "bad" rfl
  exact ⟨h.1, h.2.1, h.2.2.1 rfl, h.2.2.2.1 99 false, h.2.2.2.2.1, h.2.2.2.2.2⟩

/-- C8: every incoming message re-arms the idle-timeout guard to a fixed
30000 ms window measured from the arrival time (not from connection start),
and whenever a pending guard reaches its deadline the consumer closes the
connection and invokes `onError` with the `Stream timeout` condition. -/
theorem heartbeat_window (now t : Nat) (s s2 : SState)
    (parse : Except String Json) (b : Option String)
    (hopen : s.esOpen = true) (hpend : s2.timer = some t) :
    (streamStep now s (.msg parse b)).1.timer = some (now + 30000)
    ∧ streamStep t s2 .timerFire =
        ({ esOpen := false, timer := none }, [.warn, .errMsg "Stream timeout"]) := by
  constructor
  · cases parse <;> cases b <;> simp [streamStep, hopen, resetHeartbeat]
  · simp [streamStep, hpend]

theorem heartbeat_window_witness :
    (streamStep 7 ⟨true, some 3⟩ (.msg (.ok .null) none)).1.timer = some 30007
    ∧ streamStep 40 ⟨true, some 40⟩ .timerFire =
        (⟨false, none⟩, [.warn, .errMsg "Stream timeout"]) :=
  heartbeat_window 7 40 ⟨true, some 3⟩ ⟨true, some 40⟩ (.ok .null) none rfl rfl

lemma extractText_sampleResponse (t : Json) :
    extractText (sampleResponse t) = some t := rfl

lemma initiateSession_valid (kw it ot : String) (stream : Bool)
    (outcome : FetchOutcome) (hkw : kw ≠ "") :
    initiateSession (some insightsFlowId) (some insightsLangflowId) (some kw)
      it ot stream outcome = (post outcome, some (insightsRequest stream kw it ot)) := by
  simp [initiateSession, insightsRequest, insightsFlowId_nonempty,
    insightsLangflowId_nonempty, strFalsy_some_ne hkw]

lemma runFlow_nonstream (kw it ot : String) (r : HttpResp) (j : Json)
    (hkw : kw ≠ "") (hok : r.ok = true) (hbody : r.body = .ok j) :
    runFlow (some insightsFlowId) (some insightsLangflowId) (some kw) it ot false
      (.success r) = (.ok (.response j), some (insightsRequest false kw it ot)) := by
  have h := initiateSession_valid kw it ot false (.success r) hkw
  simp [runFlow, h, post, hok, hbody]

lemma runFlow_request (kw it ot : String) (stream : Bool) (outcome : FetchOutcome)
    (hkw : kw ≠ "") :
    (runFlow (some insightsFlowId) (some insightsLangflowId) (some kw) it ot
      stream outcome).2 = some (insightsRequest stream kw it ot) := by
  have h := initiateSession_valid kw it ot stream outcome hkw
  rcases hp : post outcome with m | j
  · simp [runFlow, h, hp]
  · simp only [runFlow, h, hp]
    split
    · split <;> rfl
    · rfl

lemma getInsights_miss_nonstream (cache : Cache) (kw it ot : String)
    (r : HttpResp) (j : Json)
    (hmiss : truthyOpt (cacheGet cache ("insights-" ++ kw)) = false)
    (hkw : kw ≠ "") (hok : r.ok = true) (hbody : r.body = .ok j) :
    getInsights cache kw it ot false true (.success r) =
      if truthyOpt (extractText j) then
        { result := .ok ((extractText j).getD .null),
          cache := cacheSet cache ("insights-" ++ kw) ((extractText j).getD .null),
          request := some (insightsRequest false kw it ot) }
      else
        { result := .error "Failed to get insights: Invalid response format",
          cache := cache, request := some (insightsRequest false kw it ot) } := by
  have h := runFlow_nonstream kw it ot r j hkw hok hbody
  simp [getInsights, hmiss, h]

lemma getInsights_miss_request (cache : Cache) (kw it ot : String) (stream : Bool)
    (outcome : FetchOutcome)
    (hmiss : truthyOpt (cacheGet cache ("insights-" ++ kw)) = false) :
    (getInsights cache kw it ot stream true outcome).request =
      (runFlow (some insightsFlowId) (some insightsLangflowId) (some kw) it ot
        stream outcome).2 := by
  rcases hrf : runFlow (some insightsFlowId) (some insightsLangflowId) (some kw)
      it ot stream outcome with ⟨res, req⟩
  cases res with
  | error m => simp [getInsights, hmiss, hrf]
  | ok out =>
      cases out with
      | streamHandle u => simp [getInsights, hmiss, hrf]
      | response j =>
          cases h2 : (!stream && truthyOpt (extractText j)) <;>
            simp [getInsights, hmiss, hrf, h2]

/-- C4: an uncached keyword whose upstream call succeeds with a (non-empty)
text at `outputs[0].outputs[0].outputs.message.message.text` makes
`getInsights` return exactly that text, and afterwards the cache holds it
under the key derived from the keyword, stored with the fixed standard TTL of
3600 seconds (one hour). -/
theorem getInsights_success_caches (cache : Cache) (kw t it ot : String)
    (r : HttpResp) (j : Json)
    (hmiss : cacheGet cache ("insights-" ++ kw) = none) (hkw : kw ≠ "")
    (hok : r.ok = true) (hbody : r.body = .ok j)
    (htext : extractText j = some (.str t)) (ht : t ≠ "") :
    (getInsights cache kw it ot false true (.success r)).result = .ok (.str t)
    ∧ cacheGet (getInsights cache kw it ot false true (.success r)).cache
        ("insights-" ++ kw) = some (.str t)
    ∧ cacheGetTtl (getInsights cache kw it ot false true (.success r)).cache
        ("insights-" ++ kw) = some 3600 := by
  have hg := getInsights_miss_nonstream cache kw it ot r j
    (by simp [hmiss, truthyOpt]) hkw hok hbody
  rw [htext] at hg
  have htr : truthyOpt (some (Json.str t)) = true := by simp [truthyOpt, truthy, ht]
  simp only [htr, if_true, Option.getD_some] at hg
  rw [hg]
  exact ⟨rfl, cacheGet_set _ _ _, cacheGetTtl_set _ _ _⟩

theorem getInsights_success_caches_witness :
    (getInsights [] "rust-servers" "chat" "chat" false true
        (.success ⟨true, 200, "OK", .ok (sampleResponse (.str "hello"))⟩)).result =
      .ok (.str "hello")
    ∧ cacheGet (getInsights [] "rust-servers" "chat" "chat" false true
        (.success ⟨true, 200, "OK", .ok (sampleResponse (.str "hello"))⟩)).cache
        "insights-rust-servers" = some (.str "hello")
    ∧ cacheGetTtl (getInsights [] "rust-servers" "chat" "chat" false true
        (.success ⟨true, 200, "OK", .ok (sampleResponse (.str "hello"))⟩)).cache
        "insights-rust-servers" = some 3600 :=
  getInsights_success_caches [] "rust-servers" "hello" "chat" "chat" _ _ rfl
    (by decide) rfl rfl (extractText_sampleResponse _) (by decide)

/-- C7: an uncached keyword whose upstream call succeeds but whose response
lacks the expected nested text path makes `getInsights` fail with the
`Invalid response format` error re-wrapped as
`Failed to get insights: Invalid response format`, leaving the cache
unchanged — no partial or alternate extraction is attempted. -/
theorem getInsights_invalid_format (cache : Cache) (kw it ot : String)
    (r : HttpResp) (j : Json)
    (hmiss : cacheGet cache ("insights-" ++ kw) = none) (hkw : kw ≠ "")
    (hok : r.ok = true) (hbody : r.body = .ok j)
    (htext : extractText j = none) :
    (getInsights cache kw it ot false true (.success r)).result =
      .error "Failed to get insights: Invalid response format"
    ∧ (getInsights cache kw it ot false true (.success r)).cache = cache := by
  have hg := getInsights_miss_nonstream cache kw it ot r j
    (by simp [hmiss, truthyOpt]) hkw hok hbody
  rw [htext] at hg
  simp only [truthyOpt, Bool.false_eq_true, if_false] at hg
  rw [hg]
  exact ⟨rfl, rfl⟩

theorem getInsights_invalid_format_witness :
    (getInsights [] "k" "chat" "chat" false true
        (.success ⟨true, 200, "OK", .ok (.obj [])⟩)).result =
      .error "Failed to get insights: Invalid response format"
    ∧ (getInsights [] "k" "chat" "chat" false true
        (.success ⟨true, 200, "OK", .ok (.obj [])⟩)).cache = [] :=
  getInsights_invalid_format [] "k" "chat" "chat" _ _ rfl (by decide) rfl rfl rfl

/-- C10 (counterexample): the line-165 guard checks only JS truthiness, not
string-ness; an upstream response carrying the number `1` at the nested text
path makes `getInsights` store and return `1`, so the cache holds a value
that is not a (non-empty) string. -/
theorem insightsCache_stores_nonstring :
    (getInsights [] "k" "chat" "chat" false true
        (.success ⟨true, 200, "OK", .ok (sampleResponse (.num 1))⟩)).cache =
      [("insights-k", Json.num 1, 3600)]
    ∧ isNonEmptyString (Json.num 1) = false := by
  constructor
  · have hg := getInsights_miss_nonstream [] "k" "chat" "chat"
      ⟨true, 200, "OK", .ok (sampleResponse (.num 1))⟩ (sampleResponse (.num 1))
      rfl (by decide) rfl rfl
    rw [extractText_sampleResponse] at hg
    simp only [truthyOpt, truthy] at hg
    norm_num at hg
    rw [hg]
    rfl
  · rfl

/-- C10 (amended): every value `getInsights` stores in the cache is truthy
(in particular never the empty string): a falsy value at the nested text path
is neither returned nor cached — the call fails with the re-wrapped
`Invalid response format` error and the cache is unchanged; every execution
either leaves the cache unchanged or adds one truthy value under the
keyword-derived key; and a cache entry holding a falsy value is treated as a
miss on lookup: the call proceeds to issue the upstream request. -/
theorem insightsCache_truthy_invariant :
    (∀ (cache : Cache) (kw it ot : String) (r : HttpResp) (j v : Json),
        cacheGet cache ("insights-" ++ kw) = none → kw ≠ "" → r.ok = true →
        r.body = .ok j → extractText j = some v → truthy v = false →
        (getInsights cache kw it ot false true (.success r)).result =
          .error "Failed to get insights: Invalid response format"
        ∧ (getInsights cache kw it ot false true (.success r)).cache = cache)
    ∧ (∀ (cache : Cache) (kw it ot : String) (stream tok : Bool)
          (outcome : FetchOutcome),
        (getInsights cache kw it ot stream tok outcome).cache = cache
        ∨ ∃ v, truthy v = true
            ∧ (getInsights cache kw it ot stream tok outcome).cache =
                cacheSet cache ("insights-" ++ kw) v)
    ∧ (∀ (cache : Cache) (kw it ot : String) (stream : Bool)
          (outcome : FetchOutcome) (v : Json),
        cacheGet cache ("insights-" ++ kw) = some v → truthy v = false → kw ≠ "" →
        (getInsights cache kw it ot stream true outcome).request =
          some (insightsRequest stream kw it ot)) := by
  refine ⟨?_, ?_, ?_⟩
  · intro cache kw it ot r j v hmiss hkw hok hbody htext hv
    have hg := getInsights_miss_nonstream cache kw it ot r j
      (by simp [hmiss, truthyOpt]) hkw hok hbody
    rw [htext] at hg
    simp only [truthyOpt, hv, Bool.false_eq_true, if_false] at hg
    rw [hg]
    exact ⟨rfl, rfl⟩
  · intro cache kw it ot stream tok outcome
    cases h1 : truthyOpt (cacheGet cache ("insights-" ++ kw)) with
    | true => left; simp [getInsights, h1]
    | false =>
        cases tok with
        | false => left; simp [getInsights, h1]
        | true =>
            rcases hrf : runFlow (some insightsFlowId) (some insightsLangflowId)
                (some kw) it ot stream outcome with ⟨res, req⟩
            cases res with
            | error m => left; simp [getInsights, h1, hrf]
            | ok out =>
                cases out with
                | streamHandle u => left; simp [getInsights, h1, hrf]
                | response j =>
                    cases h2 : (!stream && truthyOpt (extractText j)) with
                    | false => left; simp [getInsights, h1, hrf, h2]
                    | true =>
                        right
                        have hx : truthyOpt (extractText j) = true :=
                          (Bool.and_eq_true _ _ |>.mp h2).2
                        rcases hex : extractText j with _ | v
                        · rw [hex] at hx; simp [truthyOpt] at hx
                        · refine ⟨v, ?_, ?_⟩
                          · rw [hex] at hx; simpa [truthyOpt] using hx
                          · have hst : stream = false := by
                              have hb := (Bool.and_eq_true _ _ |>.mp h2).1
                              simpa using hb
                            subst hst
                            rw [hex] at hx
                            simp [getInsights, h1, hrf, hex, hx]
  · intro cache kw it ot stream outcome v hv htr hkw
    have h1 : truthyOpt (cacheGet cache ("insights-" ++ kw)) = false := by
      simp [hv, truthyOpt, htr]
    rw [getInsights_miss_request cache kw it ot stream outcome h1,
      runFlow_request kw it ot stream outcome hkw]

theorem insightsCache_truthy_invariant_witness :
    ((getInsights [] "k" "chat" "chat" false true
        (.success ⟨true, 200, "OK", .ok (sampleResponse (.str ""))⟩)).result =
      .error "Failed to get insights: Invalid response format"
    ∧ (getInsights [] "k" "chat" "chat" false true
        (.success ⟨true, 200, "OK", .ok (sampleResponse (.str ""))⟩)).cache = [])
    ∧ ((getInsights [] "w" "chat" "chat" false false (.failure "net down")).cache = []
        ∨ ∃ v, truthy v = true
            ∧ (getInsights [] "w" "chat" "chat" false false (.failure "net down")).cache =
                cacheSet [] ("insights-" ++ "w") v)
    ∧ (getInsights [("insights-k", Json.str "", 3600)] "k" "chat" "chat" false true
        (.failure "net down")).request = some (insightsRequest false "k" "chat" "chat") := by
  refine ⟨?_, ?_, ?_⟩
  · exact insightsCache_truthy_invariant.1 [] "k" "chat" "chat" _ _ _ rfl
      (by decide) rfl rfl (extractText_sampleResponse _) rfl
  · exact insightsCache_truthy_invariant.2.1 [] "w" "chat" "chat" false false _
  · exact insightsCache_truthy_invariant.2.2 [("insights-k", Json.str "", 3600)]
      "k" "chat" "chat" false _ (Json.str "") rfl rfl (by decide)
